import Mathlib

/-!
Verification of the seat-scoped data-device (selection and drag-and-drop)
subsystem of the smithay compositor library, `src/wayland/data_device/mod.rs`.

The Wayland `DndAction` type is a bitflags set over the bits Copy, Move, Ask;
it is modelled here as a record of three booleans.  The pure action negotiator
`default_action_chooser` is embedded directly from the source.  The stateful
entry points (`set_data_device_focus`, `set_data_device_selection`,
`start_dnd`, and the `wl_data_device_manager` request dispatcher) are embedded
as explicit state-passing functions over a model of the per-seat side-state;
the bodies of the submodules `seat_data.rs` and `server_dnd_grab.rs` are not
part of the sources at hand, so the operations they provide (`SeatData::new`,
`set_focus`, `set_selection`, `add_device`) are modelled from the spec, as
indicated in their doc comments.
-/

namespace DataDevice

/-- The `DndAction` bitflags of the wayland protocol: a set over the three
bits Copy (1), Move (2), Ask (4), modelled as three booleans. -/
structure DndAction where
  copy : Bool
  move : Bool
  ask : Bool
deriving DecidableEq, Repr

namespace DndAction

/-- `DndAction::empty()`: the empty action set. -/
def empty : DndAction := ⟨false, false, false⟩

/-- `DndAction::Copy`: the singleton Copy. -/
def Copy : DndAction := ⟨true, false, false⟩

/-- `DndAction::Move`: the singleton Move. -/
def Move : DndAction := ⟨false, true, false⟩

/-- `DndAction::Ask`: the singleton Ask. -/
def Ask : DndAction := ⟨false, false, true⟩

/-- Bitflags `contains`: `a.contains(b)` holds when every bit of `b` is set
in `a` (in bit terms, `a & b == b`). -/
def contains (a b : DndAction) : Bool :=
  (!b.copy || a.copy) && (!b.move || a.move) && (!b.ask || a.ask)

/-- Bitflags union `a | b`. -/
def union (a b : DndAction) : DndAction :=
  ⟨a.copy || b.copy, a.move || b.move, a.ask || b.ask⟩

end DndAction

/-- Embedding of `default_action_chooser` from
`src/wayland/data_device/mod.rs` lines 191-207: if `preferred` is one of the
three singleton actions and is contained in `available`, return it; otherwise
return the first of Ask, Copy, Move contained in `available`, or the empty
set. -/
def default_action_chooser (available preferred : DndAction) : DndAction :=
  if [DndAction.Move, DndAction.Copy, DndAction.Ask].contains preferred
      && available.contains preferred then
    preferred
  else if available.contains DndAction.Ask then
    DndAction.Ask
  else if available.contains DndAction.Copy then
    DndAction.Copy
  else if available.contains DndAction.Move then
    DndAction.Move
  else
    DndAction.empty

/-- Reference definition of the Action Negotiator, written from the spec text
of section 4.4: if `preferred` denotes exactly one of Move, Copy, Ask and that
action is a member of `available`, return `preferred`; otherwise return, in
order of preference, whichever of Ask, Copy, Move is a member of `available`;
if none are, return the empty action.  Membership of a singleton action in a
set is reading the corresponding bit. -/
def action_chooser_spec (available preferred : DndAction) : DndAction :=
  if (preferred = DndAction.Move ∧ available.move = true)
      ∨ (preferred = DndAction.Copy ∧ available.copy = true)
      ∨ (preferred = DndAction.Ask ∧ available.ask = true) then
    preferred
  else if available.ask then
    DndAction.Ask
  else if available.copy then
    DndAction.Copy
  else if available.move then
    DndAction.Move
  else
    DndAction.empty

/-- Claim C1: for every pair of action sets, `default_action_chooser` agrees
with the reference definition of the Action Negotiator from the spec: a valid
singleton preferred action contained in `available` is returned; otherwise the
first of Ask, Copy, Move contained in `available`, or the empty action. -/
theorem action_chooser_eq_spec (available preferred : DndAction) :
    default_action_chooser available preferred
      = action_chooser_spec available preferred := by
  obtain ⟨ac, am, aa⟩ := available
  obtain ⟨pc, pm, pa⟩ := preferred
  cases ac <;> cases am <;> cases aa <;> cases pc <;> cases pm <;> cases pa <;> decide

/-- Claim C2: the result of `default_action_chooser` is either the empty
action or an action set contained in `available`. -/
theorem action_chooser_in_available (available preferred : DndAction) :
    default_action_chooser available preferred = DndAction.empty
      ∨ available.contains (default_action_chooser available preferred) = true := by
  obtain ⟨ac, am, aa⟩ := available
  obtain ⟨pc, pm, pa⟩ := preferred
  cases ac <;> cases am <;> cases aa <;> cases pc <;> cases pm <;> cases pa <;> decide

/-- Claim C3: when `preferred` is not a valid singleton action contained in
`available`, and `available` contains Ask or Copy, the chooser never returns
Move. -/
theorem action_chooser_not_move (available preferred : DndAction)
    (h1 : ¬ ((preferred = DndAction.Move ∨ preferred = DndAction.Copy
        ∨ preferred = DndAction.Ask) ∧ available.contains preferred = true))
    (h2 : available.ask = true ∨ available.copy = true) :
    default_action_chooser available preferred ≠ DndAction.Move := by
  obtain ⟨ac, am, aa⟩ := available
  obtain ⟨pc, pm, pa⟩ := preferred
  revert h1 h2
  cases ac <;> cases am <;> cases aa <;> cases pc <;> cases pm <;> cases pa <;> decide

/-- Witness for claim C3 at `available = Ask`, `preferred = empty`. -/
theorem action_chooser_not_move_witness :
    (¬ ((DndAction.empty = DndAction.Move ∨ DndAction.empty = DndAction.Copy
        ∨ DndAction.empty = DndAction.Ask)
        ∧ DndAction.Ask.contains DndAction.empty = true))
    ∧ (DndAction.Ask.ask = true ∨ DndAction.Ask.copy = true)
    ∧ default_action_chooser DndAction.Ask DndAction.empty ≠ DndAction.Move :=
  ⟨by decide, by decide,
    action_chooser_not_move DndAction.Ask DndAction.empty (by decide) (by decide)⟩

/-- Claim C4: the four concrete equations of the spec hold, in particular a
preferred value that is the union of two actions is treated as invalid and
falls back to the Ask-Copy-Move precedence order. -/
theorem action_chooser_examples :
    default_action_chooser (DndAction.Copy.union DndAction.Move) DndAction.Move
        = DndAction.Move
    ∧ default_action_chooser (DndAction.Copy.union DndAction.Move) DndAction.Ask
        = DndAction.Copy
    ∧ default_action_chooser DndAction.empty DndAction.Move = DndAction.empty
    ∧ default_action_chooser
        ((DndAction.Ask.union DndAction.Copy).union DndAction.Move)
        (DndAction.Copy.union DndAction.Move) = DndAction.Ask := by
  decide

/-- `SourceMetadata` of `source.rs` (constructed at
`src/wayland/data_device/mod.rs` lines 235-238): advertised MIME types and
supported DnD actions. -/
structure SourceMetadata where
  mime_types : List String
  dnd_action : DndAction
deriving DecidableEq, Repr

/-- The `Selection` enum of `seat_data.rs`, per the spec data model:
`None | ClientOwned(DataSourceRef) | CompositorOwned(SourceMetadata)`.
Client-owned data sources are identified by a numeric identity. -/
inductive Selection where
  | empty : Selection
  | client (src : Nat) : Selection
  | compositor (meta : SourceMetadata) : Selection
deriving DecidableEq, Repr

/-- The per-seat side-state of `seat_data.rs`, per the spec data model:
current selection, current focus (a client identity), and registered device
endpoints as (client, device) pairs. -/
structure SeatData where
  selection : Selection
  focus : Option Nat
  devices : List (Nat × Nat)
deriving DecidableEq, Repr

namespace SeatData

/-- Modelled from the spec: `SeatData::new` of the missing `seat_data.rs` — a
fresh, empty per-seat side-state (no selection, no focus, no devices). -/
def new : SeatData := ⟨Selection.empty, none, []⟩

/-- The device endpoints that receive a selection offer: every device of the
focused client, provided a selection is set; none when the selection is empty
or no client is focused. -/
def offer_targets (sd : SeatData) : List Nat :=
  match sd.selection with
  | Selection.empty => []
  | _ =>
    match sd.focus with
    | some c => (sd.devices.filter (fun d => d.fst == c)).map (fun d => d.snd)
    | none => []

/-- Modelled from the spec: `SeatData::set_focus` of the missing
`seat_data.rs` (spec section 4.1) — updates `focus`; if the focus changed and
a selection is set, sends an offer to every device endpoint of the new focus
client; a no-op when the focus is unchanged.  Returns the new state and the
devices that were sent an offer. -/
def set_focus (sd : SeatData) (client : Option Nat) : SeatData × List Nat :=
  if sd.focus == client then
    (sd, [])
  else
    let sd2 : SeatData := ⟨sd.selection, client, sd.devices⟩
    (sd2, sd2.offer_targets)

/-- Effects of a `set_selection` call: the client-owned sources cancelled and
the device endpoints sent an offer. -/
structure SelEffects where
  cancelled : List Nat
  offers : List Nat
deriving DecidableEq, Repr

/-- Modelled from the spec: `SeatData::set_selection` of the missing
`seat_data.rs` (spec section 4.1) — if the previous selection was client
owned, cancels that source unless the new value is the same source; stores
the new value; then broadcasts an offer to the current focus if any. -/
def set_selection (sd : SeatData) (s : Selection) : SeatData × SelEffects :=
  let cancels : List Nat :=
    match sd.selection with
    | Selection.client old =>
      match s with
      | Selection.client nw => if old == nw then [] else [old]
      | _ => [old]
    | _ => []
  let sd2 : SeatData := ⟨s, sd.focus, sd.devices⟩
  (sd2, ⟨cancels, sd2.offer_targets⟩)

/-- Modelled from the spec: `SeatData::add_device` of the missing
`seat_data.rs` (spec section 4.1) — registers a per-client device endpoint;
if a selection is already active and the endpoint's client matches the
current focus, the endpoint receives an immediate offer. -/
def add_device (sd : SeatData) (client dev : Nat) : SeatData × List Nat :=
  let sd2 : SeatData := ⟨sd.selection, sd.focus, sd.devices ++ [(client, dev)]⟩
  let offers : List Nat :=
    match sd.selection with
    | Selection.empty => []
    | _ =>
      match sd.focus with
      | some c => if c == client then [dev] else []
      | none => []
  (sd2, offers)

end SeatData

/-- `UserDataMap::insert_if_missing` specialised to the `RefCell<SeatData>`
slot: stores a fresh `SeatData::new` when the slot is vacant, leaves an
occupied slot untouched (mod.rs lines 214-215, 230-231, 257-258, 334-335). -/
def insert_if_missing (ud : Option SeatData) : Option SeatData :=
  match ud with
  | some sd => some sd
  | none => some SeatData.new

/-- Embedding of the free function `set_data_device_focus` (mod.rs lines
210-218): attach the side-state if missing, then look it up, unwrap it
(`none` result models the `.unwrap()` panic) and call `set_focus`.  Returns
the new side-state and the offered devices. -/
def set_data_device_focus (ud : Option SeatData) (client : Option Nat) :
    Option (SeatData × List Nat) :=
  match insert_if_missing ud with
  | some sd => some (sd.set_focus client)
  | none => none

/-- Embedding of the free function `set_data_device_selection` (mod.rs lines
226-240): attach the side-state if missing, look it up, unwrap it (`none`
models the `.unwrap()` panic), and set a compositor-owned selection carrying
the given MIME types and the empty DnD action set. -/
def set_data_device_selection (ud : Option SeatData) (mime_types : List String) :
    Option (SeatData × SeatData.SelEffects) :=
  match insert_if_missing ud with
  | some sd =>
    some (sd.set_selection (Selection.compositor ⟨mime_types, DndAction.empty⟩))
  | none => none

/-- Result of a `start_dnd` call: the seat side-state afterwards, the grab
installed on the pointer (carrying the metadata and the triggering serial),
if any, and the `ServerDndGrabHandler` callbacks fired during the call. -/
structure StartDndResult where
  userData : Option SeatData
  grabSet : Option (SourceMetadata × Nat)
  callbacks : List String
deriving DecidableEq, Repr

/-- Embedding of the free function `start_dnd` (mod.rs lines 247-267):
attach the side-state if missing; if the seat has a pointer, install a
`ServerDnDGrab` built from the metadata with the given serial; otherwise do
nothing further.  No handler callback fires during the call itself. -/
def start_dnd (ud : Option SeatData) (pointer : Option Unit) (serial : Nat)
    (metadata : SourceMetadata) : StartDndResult :=
  let ud2 := insert_if_missing ud
  match pointer with
  | some _ => ⟨ud2, some (metadata, serial), []⟩
  | none => ⟨ud2, none, []⟩

/-- Result of `Seat::from_resource` on the `wl_seat` named by a
`get_data_device` request: either the seat is unmanaged, or it resolves to a
managed seat whose `SeatData` slot currently holds `ud`. -/
inductive LookupResult where
  | unmanaged : LookupResult
  | managed (ud : Option SeatData) : LookupResult
deriving DecidableEq, Repr

/-- Observable effects of handling a `get_data_device` request: log messages
emitted, whether a device endpoint was created and initialised, offers sent,
and whether a protocol error was raised to the client. -/
structure ReqEffects where
  log : List String
  deviceInitialized : Bool
  offers : List Nat
  clientError : Bool
deriving DecidableEq, Repr

/-- Embedding of the `GetDataDevice` arm of
`Dispatch<WlDataDeviceManager, (), D>::request` (mod.rs lines 331-346):
if `Seat::from_resource` resolves the seat, attach the side-state if missing,
initialise the device endpoint, look the side-state up, unwrap it (`none`
models the `.unwrap()` panic) and register the device; otherwise only log an
error.  Returns the seat state afterwards together with the effects. -/
def get_data_device_request (lookup : LookupResult) (client dev : Nat) :
    Option (LookupResult × ReqEffects) :=
  match lookup with
  | LookupResult.unmanaged =>
    some (LookupResult.unmanaged,
      ⟨["Unmanaged seat given to a data device."], false, [], false⟩)
  | LookupResult.managed ud =>
    match insert_if_missing ud with
    | some sd =>
      let res := sd.add_device client dev
      some (LookupResult.managed (some res.fst), ⟨[], true, res.snd, false⟩)
    | none => none

/-- The registration performed by `DataDeviceState::new` (mod.rs lines
166-179): `display.create_global::<D, WlDataDeviceManager, _>(3, ())`
registers the `wl_data_device_manager` global at version 3. -/
structure GlobalReg where
  interface : String
  version : Nat
deriving DecidableEq, Repr

/-- Embedding of `DataDeviceState::new` restricted to its observable
registration: the manager global it creates. -/
def DataDeviceState.new : GlobalReg :=
  ⟨"wl_data_device_manager", 3⟩

/-- Claim C5: a `get_data_device` request naming a seat the compositor does
not recognize is logged and dropped: the handler returns normally (no panic),
no device endpoint is created or initialised, no offer is sent, no seat state
exists to be modified, and no protocol error is raised to the client. -/
theorem get_data_device_unmanaged_seat (client dev : Nat) :
    get_data_device_request LookupResult.unmanaged client dev
      = some (LookupResult.unmanaged,
          ⟨["Unmanaged seat given to a data device."], false, [], false⟩) := rfl

/-- Claim C6: two successive `set_selection` calls on the same seat with
distinct client-owned sources cancel the first source exactly once, whatever
the seat state was beforehand. -/
theorem set_selection_twice_cancels_once (sd : SeatData) (s1 s2 : Nat)
    (h : s1 ≠ s2) :
    ((sd.set_selection (Selection.client s1)).snd.cancelled
      ++ ((sd.set_selection (Selection.client s1)).fst.set_selection
            (Selection.client s2)).snd.cancelled).count s1 = 1 := by
  rcases sd with ⟨sel, foc, devs⟩
  cases sel with
  | empty =>
    simp [SeatData.set_selection, h]
  | compositor meta =>
    simp [SeatData.set_selection, h]
  | client old =>
    by_cases hold : old = s1
    · subst hold
      simp [SeatData.set_selection, h]
    · simp [SeatData.set_selection, h, hold]

/-- Witness for claim C6 on a fresh seat with sources 0 and 1. -/
theorem set_selection_twice_cancels_once_witness :
    (0 : Nat) ≠ 1
    ∧ ((SeatData.new.set_selection (Selection.client 0)).snd.cancelled
        ++ ((SeatData.new.set_selection (Selection.client 0)).fst.set_selection
              (Selection.client 1)).snd.cancelled).count 0 = 1 :=
  ⟨by decide, set_selection_twice_cancels_once SeatData.new 0 1 (by decide)⟩

/-- Claim C7: for every prior seat state and MIME type list,
`set_data_device_selection` installs a compositor-owned selection whose
metadata advertises exactly the provided MIME types and whose DnD action set
is empty. -/
theorem set_data_device_selection_compositor (ud : Option SeatData)
    (mime_types : List String) :
    Option.map (fun r => r.fst.selection)
        (set_data_device_selection ud mime_types)
      = some (Selection.compositor ⟨mime_types, DndAction.empty⟩) := by
  cases ud <;> rfl

/-- Claim C8: each entry point needing per-seat state — `set_data_device_focus`,
`set_data_device_selection`, `start_dnd`, and the `get_data_device` request
handler on a managed seat — attaches the side-state if missing first, so the
following lookup-and-unwrap never panics (no entry point returns the panic
marker, and `start_dnd` always leaves the side-state attached). -/
theorem entry_points_attach_seat_data (ud : Option SeatData)
    (client : Option Nat) (mime_types : List String) (c d serial : Nat)
    (m : SourceMetadata) (ptr : Option Unit) :
    (set_data_device_focus ud client).isSome = true
    ∧ (set_data_device_selection ud mime_types).isSome = true
    ∧ (start_dnd ud ptr serial m).userData.isSome = true
    ∧ (get_data_device_request (LookupResult.managed ud) c d).isSome = true := by
  cases ud <;> cases ptr <;> exact ⟨rfl, rfl, rfl, rfl⟩

/-- Claim C9: `DataDeviceState::new` registers the data device manager global
at interface version 3, satisfying the version at least 3 requirement. -/
theorem data_device_state_new_version :
    DataDeviceState.new.version = 3 ∧ 3 ≤ DataDeviceState.new.version :=
  ⟨rfl, by decide⟩

/-- Claim C10: `start_dnd` on a seat with no pointer capability enters no
grab (the metadata is discarded), fires no `ServerDndGrabHandler` callback,
and changes nothing except lazily attaching the (empty) seat side-state. -/
theorem start_dnd_no_pointer (ud : Option SeatData) (serial : Nat)
    (m : SourceMetadata) :
    (start_dnd ud none serial m).grabSet = none
    ∧ (start_dnd ud none serial m).callbacks = []
    ∧ (start_dnd ud none serial m).userData = some (ud.getD SeatData.new) := by
  cases ud <;> exact ⟨rfl, rfl, rfl⟩

end DataDevice
